import Mathlib

/-!
Shallow embedding of the automation orchestration engine of
`backend/automation_engine.py` (class `AutomationEngine`), together with
theorems settling the specification claims about it.

Conventions of the embedding:
* Python dicts of automations become association lists with
  insert-or-replace semantics (`dictInsert`), preserving insertion order.
* The global job list of the `schedule` library becomes the `jobs` field of
  `EngineState`; a registered job stores its tag, its schedule spec and the
  captured callback arguments (`_execute_automation(automation, {})`).
* `datetime.now()` is an explicit `now : Nat` parameter (whole seconds).
* A raised Python exception is `Except.error`; an error dict returned as a
  value keeps its message in a dedicated result constructor.
* The external `service_manager` is a record of capability functions, each
  returning `Except String String` (raise or return).
-/

namespace OmniAutomation

/-- Decidable equality for `Except`, needed to evaluate concrete create
results by `decide`. -/
instance {ε α : Type} [DecidableEq ε] [DecidableEq α] : DecidableEq (Except ε α) := by
  intro x y
  cases x <;> cases y
  case error.error a b =>
    exact if h : a = b then .isTrue (by rw [h]) else
      .isFalse (fun hh => h (Except.error.inj hh))
  case error.ok a b => exact .isFalse (fun hh => Except.noConfusion hh)
  case ok.error a b => exact .isFalse (fun hh => Except.noConfusion hh)
  case ok.ok a b =>
    exact if h : a = b then .isTrue (by rw [h]) else
      .isFalse (fun hh => h (Except.ok.inj hh))

/-- The `TriggerType` enum of the source. -/
inductive TriggerType where
  | time_based
  | event_based
  | condition_based
  | manual
deriving DecidableEq, Repr

/-- The `.value` string of a `TriggerType` member. -/
def TriggerType.value : TriggerType → String
  | .time_based => "time_based"
  | .event_based => "event_based"
  | .condition_based => "condition_based"
  | .manual => "manual"

/-- `TriggerType(s)` enum construction: `some` member, or `none` for the
`ValueError` case. -/
def TriggerType.ofString (s : String) : Option TriggerType :=
  if s = "time_based" then some .time_based
  else if s = "event_based" then some .event_based
  else if s = "condition_based" then some .condition_based
  else if s = "manual" then some .manual
  else none

/-- The `ActionType` enum of the source. -/
inductive ActionType where
  | send_message
  | create_task
  | update_task
  | send_email
  | create_calendar_event
  | play_music
  | set_reminder
  | log_activity
  | custom_script
deriving DecidableEq, Repr

/-- The `.value` string of an `ActionType` member. -/
def ActionType.value : ActionType → String
  | .send_message => "send_message"
  | .create_task => "create_task"
  | .update_task => "update_task"
  | .send_email => "send_email"
  | .create_calendar_event => "create_calendar_event"
  | .play_music => "play_music"
  | .set_reminder => "set_reminder"
  | .log_activity => "log_activity"
  | .custom_script => "custom_script"

/-- `ActionType(s)` enum construction: `some` member, or `none` for the
`ValueError` case. -/
def ActionType.ofString (s : String) : Option ActionType :=
  if s = "send_message" then some .send_message
  else if s = "create_task" then some .create_task
  else if s = "update_task" then some .update_task
  else if s = "send_email" then some .send_email
  else if s = "create_calendar_event" then some .create_calendar_event
  else if s = "play_music" then some .play_music
  else if s = "set_reminder" then some .set_reminder
  else if s = "log_activity" then some .log_activity
  else if s = "custom_script" then some .custom_script
  else none

/-- A parameter map; string-valued entries looked up by key. -/
abbrev Params := List (String × String)

/-- The `AutomationTrigger` dataclass. -/
structure AutomationTrigger where
  type : TriggerType
  condition : String
  parameters : Params
deriving DecidableEq, Repr

/-- The `AutomationAction` dataclass. -/
structure AutomationAction where
  type : ActionType
  parameters : Params
  service : String
  delay_seconds : Int
deriving DecidableEq, Repr

/-- The `Automation` dataclass. `success_rate` is kept as a rational: the
source only ever stores the literal `1.0` in it and never computes with it. -/
structure Automation where
  id : String
  name : String
  description : String
  trigger : AutomationTrigger
  actions : List AutomationAction
  conditions : List String
  enabled : Bool
  created_at : Nat
  last_run : Option Nat
  run_count : Nat
  success_rate : ℚ
deriving DecidableEq, Repr

/-- The context dict as consumed by `_check_conditions`
(`context.get(flag, False)`); only these two flags are ever read. -/
structure Context where
  work_mode : Bool
  personal_mode : Bool
deriving DecidableEq, Repr

/-- The empty context dict `{}`. -/
def Context.empty : Context := ⟨false, false⟩

/-- The external `service_manager` collaborator: each capability either
returns a payload or raises (`Except.error`). -/
structure ServiceManager where
  send_message : String → String → String → Except String String
  create_task : String → String → String → Option String → String → Except String String
  update_task : String → String → Except String String
  create_calendar_event : String → String → String → String → Except String String

/-- `params[key]`: the value, or a raised `KeyError`. -/
def getParam (params : Params) (key : String) : Except String String :=
  match List.lookup key params with
  | some v => .ok v
  | none => .error ("KeyError: " ++ key)

/-- `params.get(key, default)`. -/
def getParamD (params : Params) (key deflt : String) : String :=
  (List.lookup key params).getD deflt

/-- `_replace_placeholders`: the source returns the parameters unchanged. -/
def replacePlaceholders (params : Params) (_context : Context) : Params :=
  params

/-- `_execute_action`: dispatch on the action type to the service manager
capability (or a local stub), raising on missing required parameters.
`custom_script` reaches the final `else` branch of the source, which
returns an error dict as a normal value, not an exception. -/
def executeAction (sm : ServiceManager) (action : AutomationAction)
    (context : Context) : Except String String :=
  let params := replacePlaceholders action.parameters context
  match action.type with
  | .send_message => do
      let m ← getParam params "message"
      let r ← getParam params "recipient"
      sm.send_message m r action.service
  | .create_task => do
      let t ← getParam params "title"
      sm.create_task t (getParamD params "description" "")
        (getParamD params "priority" "medium")
        (List.lookup "due_date" params) action.service
  | .update_task => do
      let tid ← getParam params "task_id"
      let u ← getParam params "updates"
      sm.update_task tid u
  | .send_email => do
      let m ← getParam params "message"
      let r ← getParam params "recipient"
      sm.send_message m r "email"
  | .create_calendar_event => do
      let t ← getParam params "title"
      let s ← getParam params "start_time"
      let e ← getParam params "end_time"
      sm.create_calendar_event t s e (getParamD params "description" "")
  | .play_music =>
      .ok ("Playing music: " ++ getParamD params "playlist" "default")
  | .set_reminder => do
      let m ← getParam params "message"
      .ok ("Reminder set: " ++ m)
  | .log_activity =>
      .ok "Activity logged"
  | .custom_script =>
      .ok "Unknown action type: custom_script"

/-- One entry of the `results` list built by `_execute_automation`:
the action value string, the success flag, and the result or error text. -/
structure ActionResult where
  action : String
  success : Bool
  output : String
deriving DecidableEq, Repr

/-- One loop iteration of `_execute_automation`: the try/except around a
single action, always producing exactly one `ActionResult`. -/
def executeActionResult (sm : ServiceManager) (action : AutomationAction)
    (context : Context) : ActionResult :=
  match executeAction sm action context with
  | .ok r => ⟨action.type.value, true, r⟩
  | .error e => ⟨action.type.value, false, e⟩

/-- The loop of `_execute_automation` over the action list, in declared
order. -/
def runActions (sm : ServiceManager) (context : Context) :
    List AutomationAction → List ActionResult
  | [] => []
  | action :: rest =>
      executeActionResult sm action context :: runActions sm context rest

/-- The dict returned by `_execute_automation`. -/
structure RunResult where
  automation_id : String
  automation_name : String
  executed_at : Nat
  results : List ActionResult
deriving DecidableEq, Repr

/-- `_execute_automation(automation, context)`. -/
def executeAutomation (sm : ServiceManager) (a : Automation)
    (context : Context) (now : Nat) : RunResult :=
  ⟨a.id, a.name, now, runActions sm context a.actions⟩

/-- `_has_upcoming_meeting`: the source is a placeholder returning `False`. -/
def hasUpcomingMeeting : Bool := false

/-- The loop body of `_check_conditions`, mirrored with its early-return
structure: the three recognized names are checked, any other name falls
through the if/elif chain and is skipped. -/
def checkConditions : List String → Context → Bool
  | [], _ => true
  | c :: rest, context =>
      if c = "work_mode" then
        if context.work_mode = false then false else checkConditions rest context
      else if c = "personal_mode" then
        if context.personal_mode = false then false else checkConditions rest context
      else if c = "upcoming_meeting" then
        if hasUpcomingMeeting = false then false else checkConditions rest context
      else
        checkConditions rest context

/-- Declarative per-condition meaning of the loop body of
`_check_conditions`: the three recognized names map to their predicates and
any other name is treated as met. -/
def conditionMet (c : String) (context : Context) : Bool :=
  if c = "work_mode" then context.work_mode
  else if c = "personal_mode" then context.personal_mode
  else if c = "upcoming_meeting" then hasUpcomingMeeting
  else true

/-- What `schedule.every()....do(...)` stored for the four recognized cron
strings. -/
inductive ScheduleSpec where
  | dailyAt (t : String)
  | everyHours (n : Nat)
  | everyMinutes (n : Nat)
deriving DecidableEq, Repr

/-- One pending job of the `schedule` library: its tag and spec, plus the
captured callback arguments `_execute_automation(automation, {})`. -/
structure ScheduleJob where
  tag : String
  spec : ScheduleSpec
  auto : Automation
  ctx : Context
deriving DecidableEq, Repr

/-- `_schedule_automation`: appends one tagged job for each of the four
literal cron strings the source special-cases; any other string matches no
branch and registers nothing. -/
def scheduleAutomation (jobs : List ScheduleJob) (a : Automation) :
    List ScheduleJob :=
  if a.trigger.type ≠ TriggerType.time_based then jobs
  else if a.trigger.condition = "0 8 * * *" then
    jobs ++ [⟨a.id, .dailyAt "08:00", a, Context.empty⟩]
  else if a.trigger.condition = "0 18 * * *" then
    jobs ++ [⟨a.id, .dailyAt "18:00", a, Context.empty⟩]
  else if a.trigger.condition = "0 */2 * * *" then
    jobs ++ [⟨a.id, .everyHours 2, a, Context.empty⟩]
  else if a.trigger.condition = "15 * * * *" then
    jobs ++ [⟨a.id, .everyMinutes 15, a, Context.empty⟩]
  else jobs

/-- The association-list automation store (`self.automations`). -/
abbrev AutoMap := List (String × Automation)

/-- Python dict lookup `self.automations.get(key)`. -/
def dictLookup : AutoMap → String → Option Automation
  | [], _ => none
  | (k, v) :: rest, key => if k = key then some v else dictLookup rest key

/-- Python dict assignment `self.automations[key] = value`: replace the
existing binding in place, or append a new one. -/
def dictInsert : AutoMap → String → Automation → AutoMap
  | [], key, v => [(key, v)]
  | (k, v0) :: rest, key, v =>
      if k = key then (key, v) :: rest else (k, v0) :: dictInsert rest key v

/-- Python `del self.automations[key]`. -/
def dictErase : AutoMap → String → AutoMap
  | [], _ => []
  | (k, v0) :: rest, key =>
      if k = key then rest else (k, v0) :: dictErase rest key

/-- The engine state the claims range over: the automation store plus the
schedule library's global job list. -/
structure EngineState where
  automations : AutoMap
  jobs : List ScheduleJob
deriving DecidableEq, Repr

/-- The raw `trigger` dict passed to `create_automation`. -/
structure RawTrigger where
  type : String
  condition : String
  parameters : Params
deriving DecidableEq, Repr

/-- One raw action dict passed to `create_automation`; `service` and
`delay_seconds` are optional with defaults applied by `.get`. -/
structure RawAction where
  type : String
  parameters : Params
  service : Option String
  delay_seconds : Option Int
deriving DecidableEq, Repr

/-- Parsing one action dict inside `create_automation`; an unknown type
string raises `ValueError`. -/
def parseAction (ad : RawAction) : Except String AutomationAction :=
  match ActionType.ofString ad.type with
  | some t => .ok ⟨t, ad.parameters, ad.service.getD "auto", ad.delay_seconds.getD 0⟩
  | none => .error ("ValueError: " ++ ad.type ++ " is not a valid ActionType")

/-- The action-parsing loop of `create_automation`, raising at the first
invalid action type. -/
def parseActions : List RawAction → Except String (List AutomationAction)
  | [] => .ok []
  | ad :: rest =>
      match parseAction ad with
      | .error e => .error e
      | .ok a =>
          match parseActions rest with
          | .error e => .error e
          | .ok as => .ok (a :: as)

/-- The success dict returned by `create_automation`. -/
structure CreateResult where
  id : String
  name : String
  status : String
  message : String
deriving DecidableEq, Repr

/-- `create_automation(name, trigger, actions, conditions)`. The first
component is the returned dict or the raised exception; the second is the
engine state after the call (unchanged when an exception is raised, since
both enum constructions happen before the store). -/
def create_automation (st : EngineState) (now : Nat) (name : String)
    (trigger : RawTrigger) (actions : List RawAction)
    (conditions : Option (List String)) :
    Except String CreateResult × EngineState :=
  let automation_id := "auto_" ++ Nat.repr now
  match TriggerType.ofString trigger.type with
  | none =>
      (.error ("ValueError: " ++ trigger.type ++ " is not a valid TriggerType"), st)
  | some ttype =>
      match parseActions actions with
      | .error e => (.error e, st)
      | .ok action_objs =>
          let trigger_obj : AutomationTrigger :=
            ⟨ttype, trigger.condition, trigger.parameters⟩
          let automation : Automation :=
            ⟨automation_id, name, "Custom automation: " ++ name, trigger_obj,
             action_objs, conditions.getD [], true, now, none, 0, 1⟩
          let newjobs :=
            if trigger_obj.type = TriggerType.time_based then
              scheduleAutomation st.jobs automation
            else st.jobs
          (.ok ⟨automation_id, name, "created",
                "Automation " ++ name ++ " created successfully"⟩,
           ⟨dictInsert st.automations automation_id automation, newjobs⟩)

/-- The result dicts of enable/disable/delete: an error dict or a success
dict with its message. -/
inductive OpResult where
  | err (message : String)
  | ok (message : String)
deriving DecidableEq, Repr

/-- `enable_automation(automation_id)`: sets the flag and, when time-based,
calls `_schedule_automation` again — without clearing any prior job. -/
def enable_automation (st : EngineState) (automation_id : String) :
    OpResult × EngineState :=
  match dictLookup st.automations automation_id with
  | none => (.err "Automation not found", st)
  | some a =>
      let a1 := { a with enabled := true }
      let newjobs :=
        if a1.trigger.type = TriggerType.time_based then
          scheduleAutomation st.jobs a1
        else st.jobs
      (.ok ("Automation " ++ a.name ++ " enabled"),
       ⟨dictInsert st.automations automation_id a1, newjobs⟩)

/-- `disable_automation(automation_id)`: clears the flag and, when
time-based, `schedule.clear(tag)` removes every job with that tag. -/
def disable_automation (st : EngineState) (automation_id : String) :
    OpResult × EngineState :=
  match dictLookup st.automations automation_id with
  | none => (.err "Automation not found", st)
  | some a =>
      let a1 := { a with enabled := false }
      let newjobs :=
        if a1.trigger.type = TriggerType.time_based then
          st.jobs.filter (fun j => j.tag ≠ automation_id)
        else st.jobs
      (.ok ("Automation " ++ a.name ++ " disabled"),
       ⟨dictInsert st.automations automation_id a1, newjobs⟩)

/-- `delete_automation(automation_id)`. -/
def delete_automation (st : EngineState) (automation_id : String) :
    OpResult × EngineState :=
  match dictLookup st.automations automation_id with
  | none => (.err "Automation not found", st)
  | some a =>
      let newjobs :=
        if a.trigger.type = TriggerType.time_based then
          st.jobs.filter (fun j => j.tag ≠ automation_id)
        else st.jobs
      (.ok ("Automation " ++ a.name ++ " deleted"),
       ⟨dictErase st.automations automation_id, newjobs⟩)

/-- The value returned by `trigger_automation`: one of the error dicts, or
the run-result dict of `_execute_automation`. -/
inductive TriggerOutcome where
  | err (message : String)
  | ran (result : RunResult)
deriving DecidableEq, Repr

/-- `trigger_automation(automation_id, context)`: not-found / disabled /
conditions gating, then execution, then the stats update (which touches
`last_run` and `run_count` only). -/
def trigger_automation (st : EngineState) (sm : ServiceManager)
    (automation_id : String) (context : Context) (now : Nat) :
    TriggerOutcome × EngineState :=
  match dictLookup st.automations automation_id with
  | none => (.err "Automation not found", st)
  | some a =>
      if a.enabled = false then (.err "Automation is disabled", st)
      else if checkConditions a.conditions context = false then
        (.err "Automation conditions not met", st)
      else
        let result := executeAutomation sm a context now
        let a1 := { a with last_run := some now, run_count := a.run_count + 1 }
        (.ran result, ⟨dictInsert st.automations automation_id a1, st.jobs⟩)

/-- One due firing inside `_worker_loop`: `schedule.run_pending()` invokes
the stored callback `_execute_automation(automation, {})`, which reads the
captured automation and returns a dict; it writes nothing back into the
engine state. -/
def runJob (sm : ServiceManager) (job : ScheduleJob) (now : Nat) : RunResult :=
  executeAutomation sm job.auto job.ctx now

/-- The engine-state view of one due firing: the produced run result next
to the (untouched) state. -/
def workerFireJob (st : EngineState) (sm : ServiceManager)
    (job : ScheduleJob) (now : Nat) : RunResult × EngineState :=
  (runJob sm job now, st)

/-- Split a character list into space-separated fields. -/
def splitOnSpace : List Char → List (List Char)
  | [] => [[]]
  | c :: rest =>
      match splitOnSpace rest with
      | [] => [[]]
      | f :: fs => if c = ' ' then [] :: f :: fs else (c :: f) :: fs

/-- Modelled from the spec (for the comparison in the schedule-generality
claim): a well-formed field of a 5-field cron-like expression is `*`, a
decimal value, or a `*/N` step. -/
def cronFieldWellFormed (cs : List Char) : Bool :=
  (cs == ['*'])
    || (!cs.isEmpty && cs.all Char.isDigit)
    || (match cs with
        | '*' :: '/' :: r => !r.isEmpty && r.all Char.isDigit
        | _ => false)

/-- Modelled from the spec: a well-formed 5-field cron-like expression
(minute, hour, day-of-month, month, day-of-week). -/
def specCronWellFormed (s : String) : Bool :=
  let fields := splitOnSpace s.data
  (fields.length == 5) && fields.all cronFieldWellFormed

/-- Number of pending jobs tagged with a given automation id. -/
def countTagged (jobs : List ScheduleJob) (automation_id : String) : Nat :=
  (jobs.filter (fun j => j.tag = automation_id)).length

/-! Concrete fixtures used by witnesses and counterexamples. -/

/-- A service manager whose calls all succeed. -/
def smOK : ServiceManager :=
  ⟨fun _ _ _ => .ok "sent",
   fun _ _ _ _ _ => .ok "task created",
   fun _ _ => .ok "task updated",
   fun _ _ _ _ => .ok "event created"⟩

/-- A service manager whose `send_message` raises. -/
def smSendFails : ServiceManager :=
  { smOK with send_message := fun _ _ _ => .error "network error" }

/-- The empty engine state. -/
def st0 : EngineState := ⟨[], []⟩

/-- A raw manual trigger dict. -/
def rawManualTrigger : RawTrigger := ⟨"manual", "start_focus", []⟩

/-- A raw time-based trigger dict with the recognized `0 8 * * *` string. -/
def rawTimeTrigger8 : RawTrigger := ⟨"time_based", "0 8 * * *", []⟩

/-- A raw time-based trigger dict with a well-formed but unrecognized
schedule string. -/
def rawTimeTriggerOdd : RawTrigger := ⟨"time_based", "30 9 * * *", []⟩

/-- A raw `send_message` action dict. -/
def rawMsgAction : RawAction :=
  ⟨"send_message", [("message", "hi"), ("recipient", "self")], some "slack", some 0⟩

/-- A raw `create_task` action dict relying on the defaults. -/
def rawTaskAction : RawAction := ⟨"create_task", [("title", "plan")], none, none⟩

/-- A raw action dict with an unknown type string. -/
def rawBadAction : RawAction := ⟨"fly_to_moon", [], none, none⟩

/-- The parsed `send_message` action. -/
def msgAction : AutomationAction :=
  ⟨.send_message, [("message", "hi"), ("recipient", "self")], "slack", 0⟩

/-- State after creating one manual automation (id `auto_100`) with one
message action and no conditions. -/
def stManual : EngineState :=
  (create_automation st0 100 "focus" rawManualTrigger [rawMsgAction] none).2

/-- The automation stored in `stManual`. -/
def autoManual100 : Automation :=
  ⟨"auto_100", "focus", "Custom automation: focus", ⟨.manual, "start_focus", []⟩,
   [msgAction], [], true, 100, none, 0, 1⟩

/-- `stManual` after disabling its automation. -/
def stManualDisabled : EngineState := (disable_automation stManual "auto_100").2

/-- The automation stored in `stManualDisabled`. -/
def autoManualDisabled : Automation := { autoManual100 with enabled := false }

/-- The automation stored in `stCond`. -/
def autoCond : Automation :=
  ⟨"auto_100", "worky", "Custom automation: worky", ⟨.manual, "start_focus", []⟩,
   [msgAction], ["work_mode"], true, 100, none, 0, 1⟩

/-- State after creating one manual automation gated on `work_mode`. -/
def stCond : EngineState :=
  (create_automation st0 100 "worky" rawManualTrigger [rawMsgAction]
    (some ["work_mode"])).2

/-- State after creating one time-based automation (schedule `0 8 * * *`)
gated on `work_mode`. -/
def stCond8 : EngineState :=
  (create_automation st0 100 "morning" rawTimeTrigger8 [rawMsgAction]
    (some ["work_mode"])).2

/-- The automation stored in `stCond8`. -/
def autoCond8 : Automation :=
  ⟨"auto_100", "morning", "Custom automation: morning",
   ⟨.time_based, "0 8 * * *", []⟩, [msgAction], ["work_mode"], true, 100, none, 0, 1⟩

/-- The single pending job of `stCond8`. -/
def jobCond8 : ScheduleJob := ⟨"auto_100", .dailyAt "08:00", autoCond8, Context.empty⟩

/-- State after creating one time-based automation (schedule `0 8 * * *`)
with no conditions. -/
def stTime8 : EngineState :=
  (create_automation st0 100 "sunrise" rawTimeTrigger8 [rawMsgAction] none).2

/-- The automation stored in `stTime8`. -/
def autoTime8 : Automation :=
  ⟨"auto_100", "sunrise", "Custom automation: sunrise",
   ⟨.time_based, "0 8 * * *", []⟩, [msgAction], [], true, 100, none, 0, 1⟩

/-- The four literal schedule strings special-cased by
`_schedule_automation`. -/
def recognizedCrons : List String :=
  ["0 8 * * *", "0 18 * * *", "0 */2 * * *", "15 * * * *"]

/-! Helper lemmas about the embedded operations. -/

/-- Looking up the freshly inserted key returns the inserted value. -/
theorem dictLookup_insert_self (m : AutoMap) (key : String) (v : Automation) :
    dictLookup (dictInsert m key v) key = some v := by
  induction m with
  | nil => simp [dictInsert, dictLookup]
  | cons p rest ih =>
      obtain ⟨k0, v0⟩ := p
      by_cases h0 : k0 = key
      · subst h0; simp [dictInsert, dictLookup]
      · simp [dictInsert, dictLookup, h0, ih]

/-- Inserting under one key leaves every other key's binding unchanged. -/
theorem dictLookup_insert_ne (m : AutoMap) (qkey ikey : String) (v : Automation)
    (h : qkey ≠ ikey) : dictLookup (dictInsert m ikey v) qkey = dictLookup m qkey := by
  have h2 : ¬(ikey = qkey) := fun hh => h hh.symm
  induction m with
  | nil => simp [dictInsert, dictLookup, h2]
  | cons p rest ih =>
      obtain ⟨k0, v0⟩ := p
      by_cases h0 : k0 = ikey
      · subst h0
        simp [dictInsert, dictLookup, h2]
      · simp [dictInsert, dictLookup, h0, ih]

/-- The action-parsing loop raises as soon as any action in the list has an
unknown type string. -/
theorem parseActions_error_of_mem {l : List RawAction} {ra : RawAction}
    (hmem : ra ∈ l) (hbad : ActionType.ofString ra.type = none) :
    ∃ e, parseActions l = Except.error e := by
  induction l with
  | nil => cases hmem
  | cons x xs ih =>
      rcases List.mem_cons.mp hmem with rfl | hmem2
      · exact ⟨"ValueError: " ++ ra.type ++ " is not a valid ActionType",
          by simp [parseActions, parseAction, hbad]⟩
      · rcases ih hmem2 with ⟨e, he⟩
        cases hp : parseAction x with
        | error e0 => exact ⟨e0, by simp [parseActions, hp]⟩
        | ok a0 => exact ⟨e, by simp [parseActions, hp, he]⟩

/-- `runActions` is the pointwise map of the single-action try/except. -/
theorem runActions_eq_map (sm : ServiceManager) (context : Context)
    (l : List AutomationAction) :
    runActions sm context l = l.map (fun act => executeActionResult sm act context) := by
  induction l with
  | nil => rfl
  | cons x xs ih => simp [runActions, ih]

/-- `schedule.clear(tag)` leaves no job carrying that tag. -/
theorem countTagged_filter_ne (jobs : List ScheduleJob) (automation_id : String) :
    countTagged (jobs.filter (fun j => j.tag ≠ automation_id)) automation_id = 0 := by
  induction jobs with
  | nil => rfl
  | cons j rest ih =>
      by_cases h : j.tag = automation_id <;>
        simp only [countTagged] at ih ⊢ <;>
        simp [List.filter_cons, h, ih]

/-- Tag counting distributes over job-list concatenation. -/
theorem countTagged_append (xs ys : List ScheduleJob) (automation_id : String) :
    countTagged (xs ++ ys) automation_id =
      countTagged xs automation_id + countTagged ys automation_id := by
  simp [countTagged, List.filter_append]

/-- Any job newly produced by `_schedule_automation` for automation `a`
carries tag `a.id` and the callback arguments `(a, {})`. -/
theorem scheduleAutomation_mem_new {jobs : List ScheduleJob} {a : Automation}
    {job : ScheduleJob} (hmem : job ∈ scheduleAutomation jobs a)
    (hnew : job ∉ jobs) :
    job.tag = a.id ∧ job.auto = a ∧ job.ctx = Context.empty := by
  have key : ∀ spec : ScheduleSpec,
      job ∈ jobs ++ [⟨a.id, spec, a, Context.empty⟩] →
      job.tag = a.id ∧ job.auto = a ∧ job.ctx = Context.empty := by
    intro spec hm
    rcases List.mem_append.mp hm with h | h
    · exact absurd h hnew
    · simp only [List.mem_singleton] at h
      subst h
      exact ⟨rfl, rfl, rfl⟩
  unfold scheduleAutomation at hmem
  split_ifs at hmem
  · exact absurd hmem hnew
  · exact key _ hmem
  · exact key _ hmem
  · exact key _ hmem
  · exact key _ hmem
  · exact absurd hmem hnew

/-- For a recognized schedule string, `_schedule_automation` appends exactly
one job. -/
theorem scheduleAutomation_recognized {a : Automation}
    (htime : a.trigger.type = TriggerType.time_based)
    (hcron : a.trigger.condition ∈ recognizedCrons) (jobs : List ScheduleJob) :
    ∃ j, scheduleAutomation jobs a = jobs ++ [j] ∧ j.tag = a.id ∧
      j.auto = a ∧ j.ctx = Context.empty := by
  simp only [recognizedCrons, List.mem_cons, List.mem_singleton] at hcron
  unfold scheduleAutomation
  rw [if_neg (by simp [htime])]
  rcases hcron with h | h | h | (h | hfalse)
  · rw [if_pos h]; exact ⟨_, rfl, rfl, rfl, rfl⟩
  · rw [if_neg (by simp [h]), if_pos h]; exact ⟨_, rfl, rfl, rfl, rfl⟩
  · rw [if_neg (by simp [h]), if_neg (by simp [h]), if_pos h]
    exact ⟨_, rfl, rfl, rfl, rfl⟩
  · rw [if_neg (by simp [h]), if_neg (by simp [h]), if_neg (by simp [h]), if_pos h]
    exact ⟨_, rfl, rfl, rfl, rfl⟩
  · cases hfalse

/-- For any other schedule string, `_schedule_automation` registers
nothing. -/
theorem scheduleAutomation_unrecognized {a : Automation}
    (hcron : a.trigger.condition ∉ recognizedCrons) (jobs : List ScheduleJob) :
    scheduleAutomation jobs a = jobs := by
  simp only [recognizedCrons, List.mem_cons, List.mem_singleton, not_or] at hcron
  obtain ⟨h1, h2, h3, h4, _⟩ := hcron
  unfold scheduleAutomation
  split_ifs <;> rfl

/-! Claim theorems. -/

/-- C1 (counterexample): a freshly created automation (run_count 0,
success_rate 1) is manually triggered and its single action fails, so the
run is unsuccessful. The claimed formula demands the stored success rate
become `(1 * 0 + 0) / (0 + 1) = 0`, but after the trigger the stored record
still has success_rate 1 — `trigger_automation` updates only `last_run` and
`run_count` and never recomputes `success_rate`. -/
theorem trigger_success_rate_not_updated_cex :
    (dictLookup stManual.automations "auto_100").map Automation.run_count = some 0 ∧
    (dictLookup stManual.automations "auto_100").map Automation.success_rate = some 1 ∧
    (trigger_automation stManual smSendFails "auto_100" Context.empty 200).1 =
      .ran ⟨"auto_100", "focus", 200, [⟨"send_message", false, "network error"⟩]⟩ ∧
    (dictLookup (trigger_automation stManual smSendFails "auto_100" Context.empty
        200).2.automations "auto_100").map Automation.run_count = some 1 ∧
    (dictLookup (trigger_automation stManual smSendFails "auto_100" Context.empty
        200).2.automations "auto_100").map Automation.success_rate = some 1 ∧
    ((1 : ℚ) * 0 + 0) / (0 + 1) ≠ 1 :=
  ⟨by decide, by decide, by decide, by decide, by decide, by norm_num⟩

/-- C1 (amended): for every stored automation that is enabled and whose
conditions are met, `trigger_automation` executes the actions and then
updates the record: `last_run` is set to the current time and `run_count`
increases by exactly 1, while `success_rate` is left unchanged (the record
update touches no other field). -/
theorem trigger_updates_stats_except_success_rate
    (st : EngineState) (sm : ServiceManager) (automation_id : String)
    (context : Context) (now : Nat) (a : Automation)
    (hfound : dictLookup st.automations automation_id = some a)
    (hen : a.enabled = true)
    (hcond : checkConditions a.conditions context = true) :
    trigger_automation st sm automation_id context now =
      (.ran (executeAutomation sm a context now),
       ⟨dictInsert st.automations automation_id
          { a with last_run := some now, run_count := a.run_count + 1 },
        st.jobs⟩) := by
  unfold trigger_automation
  rw [hfound]
  simp [hen, hcond]

/-- C1 (witness): the amended theorem applied to the concrete one-automation
state, where the single send-message action fails. -/
theorem trigger_updates_stats_witness :
    trigger_automation stManual smSendFails "auto_100" Context.empty 200 =
      (.ran (executeAutomation smSendFails autoManual100 Context.empty 200),
       ⟨dictInsert stManual.automations "auto_100"
          { autoManual100 with last_run := some 200,
                               run_count := autoManual100.run_count + 1 },
        stManual.jobs⟩) :=
  trigger_updates_stats_except_success_rate stManual smSendFails "auto_100"
    Context.empty 200 autoManual100 (by decide) (by decide) (by decide)

/-- C6 (confirmed): manual triggering of a disabled automation returns the
disabled error dict, and of an enabled automation whose conditions are
unmet returns the conditions error dict; in both cases the engine state is
returned unchanged (so last_run, run_count and success_rate are untouched)
and the outcome carries no run result (no action was executed). -/
theorem trigger_error_paths_leave_state_unchanged
    (st : EngineState) (sm : ServiceManager) (automation_id : String)
    (context : Context) (now : Nat) (a : Automation)
    (hfound : dictLookup st.automations automation_id = some a) :
    (a.enabled = false →
      trigger_automation st sm automation_id context now =
        (.err "Automation is disabled", st)) ∧
    (a.enabled = true → checkConditions a.conditions context = false →
      trigger_automation st sm automation_id context now =
        (.err "Automation conditions not met", st)) := by
  constructor
  · intro hdis
    unfold trigger_automation
    rw [hfound]
    simp [hdis]
  · intro hen hcond
    unfold trigger_automation
    rw [hfound]
    simp [hen, hcond]

/-- C6 (witness): both error paths at concrete states — a disabled
automation, and an enabled one gated on `work_mode` triggered with the
empty context. -/
theorem trigger_error_paths_witness :
    trigger_automation stManualDisabled smOK "auto_100" Context.empty 200 =
      (.err "Automation is disabled", stManualDisabled) ∧
    trigger_automation stCond smOK "auto_100" Context.empty 200 =
      (.err "Automation conditions not met", stCond) :=
  ⟨(trigger_error_paths_leave_state_unchanged stManualDisabled smOK "auto_100"
      Context.empty 200 autoManualDisabled (by decide)).1 (by decide),
   (trigger_error_paths_leave_state_unchanged stCond smOK "auto_100"
      Context.empty 200 autoCond (by decide)).2 (by decide) (by decide)⟩

/-- C4 (counterexample): a condition list containing only a name unknown to
the registry evaluates to true — the if/elif chain of `_check_conditions`
has no else branch, so an unknown name is skipped rather than treated as
unmet, contradicting the claim that evaluation returns false whenever any
listed name is unknown. -/
theorem unknown_condition_ignored_cex :
    checkConditions ["made_up_condition"] Context.empty = true := by
  decide

/-- C4 (amended): condition evaluation returns true for the empty list and
otherwise is the conjunction of the per-name checks, where `work_mode` and
`personal_mode` read the context flags, `upcoming_meeting` reads the
(always-false) meeting placeholder, and any unknown name is skipped —
treated as met (fails open), not as unmet. -/
theorem checkConditions_and_semantics (conditions : List String) (context : Context) :
    checkConditions conditions context = true ↔
      ∀ c ∈ conditions, conditionMet c context = true := by
  induction conditions with
  | nil => simp [checkConditions]
  | cons c rest ih =>
      by_cases h1 : c = "work_mode"
      · subst h1
        cases hw : context.work_mode <;>
          simp [checkConditions, conditionMet, hw, ih]
      · by_cases h2 : c = "personal_mode"
        · subst h2
          cases hp : context.personal_mode <;>
            simp [checkConditions, conditionMet, hp, ih]
        · by_cases h3 : c = "upcoming_meeting"
          · subst h3
            simp [checkConditions, conditionMet, hasUpcomingMeeting, ih]
          · simp [checkConditions, conditionMet, h1, h2, h3, ih]

/-- C4 (witness): the amended characterization instantiated on a list
mixing a known (satisfied) condition with an unknown one. -/
theorem checkConditions_and_semantics_witness :
    checkConditions ["work_mode", "made_up_condition"] ⟨true, false⟩ = true :=
  (checkConditions_and_semantics ["work_mode", "made_up_condition"]
    ⟨true, false⟩).mpr (by decide)

/-- C7 (confirmed): executing a run over an action list of length n yields
exactly n ActionResults, and the i-th result is exactly the try/except
record of the i-th action — so results keep the declared order, each action
independently records its success or failure, and a failing action never
aborts or skips any later action. -/
theorem execute_run_result_per_action (sm : ServiceManager) (a : Automation)
    (context : Context) (now : Nat) :
    (executeAutomation sm a context now).results.length = a.actions.length ∧
    ∀ i : Nat, (executeAutomation sm a context now).results[i]? =
      a.actions[i]?.map (fun act => executeActionResult sm act context) := by
  constructor
  · simp [executeAutomation, runActions_eq_map]
  · intro i
    simp [executeAutomation, runActions_eq_map, List.getElem?_map]

/-- C5 (counterexample): creating with an unknown trigger kind, and with an
unknown action kind, each raises `ValueError` out of the enum construction
(modelled as `Except.error`) instead of returning the error as a typed
result dict; the engine state is unchanged, so nothing is stored. The
claim's failure mode is real — it is the delivery (an uncaught exception
across the boundary, not a typed ValidationError result) that is wrong. -/
theorem create_unknown_kind_raises_cex :
    create_automation st0 100 "x" ⟨"bogus_trigger", "c", []⟩ [] none =
      (Except.error "ValueError: bogus_trigger is not a valid TriggerType", st0) ∧
    create_automation st0 100 "y" rawManualTrigger [rawBadAction] none =
      (Except.error "ValueError: fly_to_moon is not a valid ActionType", st0) :=
  ⟨by decide, by decide⟩

/-- C5 (amended): for every create request whose trigger kind, or any of
whose action kinds, is outside the closed enums, `create_automation` raises
`ValueError` (an exception crossing the boundary, not a typed error result)
and stores nothing: the engine state is returned unchanged. -/
theorem create_invalid_kind_raises_and_stores_nothing
    (st : EngineState) (now : Nat) (name : String) (trigger : RawTrigger)
    (actions : List RawAction) (conditions : Option (List String)) :
    (TriggerType.ofString trigger.type = none →
      create_automation st now name trigger actions conditions =
        (.error ("ValueError: " ++ trigger.type ++ " is not a valid TriggerType"), st)) ∧
    (∀ ra ∈ actions, ActionType.ofString ra.type = none →
      (∃ e, (create_automation st now name trigger actions conditions).1 =
        Except.error e) ∧
      (create_automation st now name trigger actions conditions).2 = st) := by
  constructor
  · intro htp
    simp [create_automation, htp]
  · intro ra hmem hbad
    cases htp : TriggerType.ofString trigger.type with
    | none =>
        exact ⟨⟨"ValueError: " ++ trigger.type ++ " is not a valid TriggerType",
                by simp [create_automation, htp]⟩,
               by simp [create_automation, htp]⟩
    | some t =>
        obtain ⟨e, he⟩ := parseActions_error_of_mem hmem hbad
        exact ⟨⟨e, by simp [create_automation, htp, he]⟩,
               by simp [create_automation, htp, he]⟩

/-- C5 (witness): the amended theorem at the two concrete bad requests. -/
theorem create_invalid_kind_witness :
    create_automation st0 100 "x" ⟨"bogus_trigger", "c", []⟩ [] none =
      (.error ("ValueError: " ++ "bogus_trigger" ++ " is not a valid TriggerType"), st0) ∧
    ((∃ e, (create_automation st0 100 "y" rawManualTrigger [rawBadAction] none).1 =
        Except.error e) ∧
      (create_automation st0 100 "y" rawManualTrigger [rawBadAction] none).2 = st0) :=
  ⟨(create_invalid_kind_raises_and_stores_nothing st0 100 "x"
      ⟨"bogus_trigger", "c", []⟩ [] none).1 (by decide),
   (create_invalid_kind_raises_and_stores_nothing st0 100 "y"
      rawManualTrigger [rawBadAction] none).2 rawBadAction (by decide) (by decide)⟩

/-- C2 (counterexample): `30 9 * * *` (daily at 09:30) is a well-formed
5-field cron expression by the spec's own grammar, yet creating an enabled
time-based automation with it registers no timer at all: `_schedule_automation`
only matches four hardcoded literal strings. -/
theorem wellformed_cron_not_scheduled_cex :
    specCronWellFormed "30 9 * * *" = true ∧
    (create_automation st0 100 "odd" rawTimeTriggerOdd [rawMsgAction] none).1 =
      .ok ⟨"auto_100", "odd", "created", "Automation odd created successfully"⟩ ∧
    (create_automation st0 100 "odd" rawTimeTriggerOdd [rawMsgAction] none).2.jobs = [] :=
  ⟨by decide, by decide, by decide⟩

/-- C2 (amended): for a time-based automation, only the four literal
schedule strings `0 8 * * *`, `0 18 * * *`, `0 */2 * * *` and `15 * * * *`
arm a timer (exactly one job tagged with the automation id); every other
schedule string — well-formed 5-field cron or not — arms none. -/
theorem scheduleAutomation_only_literal_strings
    (jobs : List ScheduleJob) (a : Automation)
    (htime : a.trigger.type = TriggerType.time_based) :
    (a.trigger.condition ∉ recognizedCrons → scheduleAutomation jobs a = jobs) ∧
    (a.trigger.condition ∈ recognizedCrons →
      ∃ j, scheduleAutomation jobs a = jobs ++ [j] ∧ j.tag = a.id ∧
        j.auto = a ∧ j.ctx = Context.empty) := by
  exact ⟨fun h => scheduleAutomation_unrecognized h jobs,
         fun h => scheduleAutomation_recognized htime h jobs⟩

/-- C2 (witness): both halves at concrete automations — the well-formed but
unrecognized `30 9 * * *` arms nothing, the literal `0 8 * * *` arms one
tagged job. -/
theorem scheduleAutomation_only_literal_strings_witness :
    scheduleAutomation [] { autoTime8 with
      trigger := ⟨.time_based, "30 9 * * *", []⟩ } = [] ∧
    ∃ j, scheduleAutomation [] autoTime8 = [] ++ [j] ∧ j.tag = autoTime8.id ∧
      j.auto = autoTime8 ∧ j.ctx = Context.empty :=
  ⟨(scheduleAutomation_only_literal_strings []
      { autoTime8 with trigger := ⟨.time_based, "30 9 * * *", []⟩ } rfl).1 (by decide),
   (scheduleAutomation_only_literal_strings [] autoTime8 rfl).2 (by decide)⟩

/-- C3 (counterexample): a time-based automation gated on `work_mode` is
created; its single pending job is fired by the worker while the context is
empty (conditions unmet). The firing executes the action anyway and leaves
the engine state untouched (`run_count` still 0), while the manual-trigger
path on the same state refuses with the conditions error — so the scheduled
path performs neither the gating nor the bookkeeping of the manual path. -/
theorem scheduled_fire_skips_gating_cex :
    stCond8.jobs = [jobCond8] ∧
    checkConditions autoCond8.conditions Context.empty = false ∧
    workerFireJob stCond8 smOK jobCond8 200 =
      (⟨"auto_100", "morning", 200, [⟨"send_message", true, "sent"⟩]⟩, stCond8) ∧
    (dictLookup stCond8.automations "auto_100").map Automation.run_count = some 0 ∧
    trigger_automation stCond8 smOK "auto_100" Context.empty 200 =
      (.err "Automation conditions not met", stCond8) :=
  ⟨by decide, by decide, by decide, by decide, by decide⟩

/-- C3 (amended): a due firing of any job registered by
`_schedule_automation` invokes `_execute_automation` directly on the
captured automation with the empty context: every action runs with no
re-check of the enabled flag and no condition evaluation, and the engine
state — including last_run, run_count and success_rate — is left
completely unchanged. -/
theorem scheduled_fire_executes_directly
    (st : EngineState) (sm : ServiceManager) (now : Nat)
    (jobs : List ScheduleJob) (a : Automation) (job : ScheduleJob)
    (hmem : job ∈ scheduleAutomation jobs a) (hnew : job ∉ jobs) :
    workerFireJob st sm job now = (executeAutomation sm a Context.empty now, st) := by
  obtain ⟨_, hauto, hctx⟩ := scheduleAutomation_mem_new hmem hnew
  unfold workerFireJob runJob
  rw [hauto, hctx]

/-- C3 (witness): the amended theorem at the concrete job registered for
the condition-gated morning automation. -/
theorem scheduled_fire_executes_directly_witness :
    workerFireJob stManual smOK jobCond8 200 =
      (executeAutomation smOK autoCond8 Context.empty 200, stManual) :=
  scheduled_fire_executes_directly stManual smOK 200 [] autoCond8 jobCond8
    (by decide) (by decide)

/-- First of two creates performed during the same clock second. -/
def createTwiceFirst : Except String CreateResult × EngineState :=
  create_automation st0 100 "first" rawManualTrigger [rawTaskAction] none

/-- Second create, during the same clock second as the first. -/
def createTwiceSecond : Except String CreateResult × EngineState :=
  create_automation createTwiceFirst.2 100 "second" rawManualTrigger [rawTaskAction] none

/-- C8 (counterexample): two successful creates within the same whole
second (`int(datetime.now().timestamp())` equal) are assigned the same id
`auto_100`; the second create overwrites the first, leaving a single stored
automation named `second`. -/
theorem same_second_create_overwrites_cex :
    createTwiceFirst.1 =
      .ok ⟨"auto_100", "first", "created", "Automation first created successfully"⟩ ∧
    createTwiceSecond.1 =
      .ok ⟨"auto_100", "second", "created", "Automation second created successfully"⟩ ∧
    createTwiceSecond.2.automations.length = 1 ∧
    (dictLookup createTwiceSecond.2.automations "auto_100").map Automation.name =
      some "second" :=
  ⟨by decide, by decide, by decide, by decide⟩

/-- C8 (amended): the id assigned by a successful create is exactly
`auto_` followed by the whole-second creation timestamp, so two creates
collide exactly when they run in the same second; a create never overwrites
an entry stored under any other key — every binding whose key differs from
the fresh timestamp-derived id is preserved verbatim. -/
theorem create_id_from_clock
    (st : EngineState) (now : Nat) (name : String) (trigger : RawTrigger)
    (actions : List RawAction) (conditions : Option (List String)) :
    (∀ res, (create_automation st now name trigger actions conditions).1 = .ok res →
      res.id = "auto_" ++ Nat.repr now) ∧
    (∀ k a, k ≠ "auto_" ++ Nat.repr now → dictLookup st.automations k = some a →
      dictLookup (create_automation st now name trigger actions
        conditions).2.automations k = some a) := by
  cases htp : TriggerType.ofString trigger.type with
  | none =>
      constructor
      · intro res hres
        simp [create_automation, htp] at hres
      · intro k a hk hkm
        simp only [create_automation, htp]
        exact hkm
  | some t =>
      cases hpa : parseActions actions with
      | error e =>
          constructor
          · intro res hres
            simp [create_automation, htp, hpa] at hres
          · intro k a hk hkm
            simp only [create_automation, htp, hpa]
            exact hkm
      | ok objs =>
          constructor
          · intro res hres
            simp [create_automation, htp, hpa] at hres
            rw [← hres]
          · intro k a hk hkm
            simp only [create_automation, htp, hpa]
            rw [dictLookup_insert_ne _ _ _ _ hk]
            exact hkm

/-- C8 (witness): the amended theorem at concrete inputs — the id of a
create at second 100, and the preservation of the `auto_100` entry across a
later create at second 200. -/
theorem create_id_from_clock_witness :
    CreateResult.id ⟨"auto_100", "n", "created",
        "Automation n created successfully"⟩ = "auto_" ++ Nat.repr 100 ∧
    dictLookup (create_automation stManual 200 "later" rawManualTrigger []
        none).2.automations "auto_100" = some autoManual100 :=
  ⟨(create_id_from_clock st0 100 "n" rawManualTrigger [] none).1
      ⟨"auto_100", "n", "created", "Automation n created successfully"⟩ (by decide),
   (create_id_from_clock stManual 200 "later" rawManualTrigger [] none).2
      "auto_100" autoManual100 (by decide) (by decide)⟩

/-- C9 (counterexample): after creating an enabled time-based automation
(one pending timer), calling enable on it — which the claim says is
idempotent — registers a second job with the same tag: `enable_automation`
calls `_schedule_automation` again without clearing the existing timer. -/
theorem enable_duplicates_timer_cex :
    countTagged stTime8.jobs "auto_100" = 1 ∧
    (dictLookup stTime8.automations "auto_100").map Automation.enabled = some true ∧
    countTagged (enable_automation stTime8 "auto_100").2.jobs "auto_100" = 2 :=
  ⟨by decide, by decide, by decide⟩

/-- C9 (amended): for a stored time-based automation, a disabled or deleted
one has zero pending timers — disable and delete both clear every job
tagged with the id — and, for one of the four recognized schedule strings,
disable followed by enable leaves exactly one pending timer tagged with its
id (disable clears all of them, enable registers exactly one). But enable
alone is not idempotent — on an already-scheduled automation it adds a
duplicate timer, as the counterexample shows, so an enabled automation need
not have exactly one. -/
theorem disabled_deleted_zero_timers_enable_rearms
    (st : EngineState) (automation_id : String) (a : Automation)
    (hfound : dictLookup st.automations automation_id = some a)
    (hid : a.id = automation_id)
    (htime : a.trigger.type = TriggerType.time_based) :
    countTagged (disable_automation st automation_id).2.jobs automation_id = 0 ∧
    countTagged (delete_automation st automation_id).2.jobs automation_id = 0 ∧
    (a.trigger.condition ∈ recognizedCrons →
      countTagged (enable_automation (disable_automation st
        automation_id).2 automation_id).2.jobs automation_id = 1) := by
  refine ⟨?_, ?_, ?_⟩
  · unfold disable_automation
    rw [hfound]
    simp only [htime, if_pos]
    exact countTagged_filter_ne st.jobs automation_id
  · unfold delete_automation
    rw [hfound]
    simp only [htime, if_pos]
    exact countTagged_filter_ne st.jobs automation_id
  · intro hcron
    unfold disable_automation
    rw [hfound]
    simp only [htime, if_pos]
    unfold enable_automation
    simp only [dictLookup_insert_self]
    simp only [htime, if_pos]
    obtain ⟨j, hj, hjtag, _, _⟩ :=
      scheduleAutomation_recognized (a := { a with enabled := true }) htime hcron
        (st.jobs.filter fun j => j.tag ≠ automation_id)
    rw [hj, countTagged_append, countTagged_filter_ne]
    simp [countTagged, hjtag, hid]

/-- C9 (witness): the amended theorem at the concrete time-based state —
zero timers after disable, zero after delete, exactly one after
disable-then-enable. -/
theorem disabled_deleted_zero_timers_witness :
    countTagged (disable_automation stTime8 "auto_100").2.jobs "auto_100" = 0 ∧
    countTagged (delete_automation stTime8 "auto_100").2.jobs "auto_100" = 0 ∧
    countTagged (enable_automation (disable_automation stTime8
      "auto_100").2 "auto_100").2.jobs "auto_100" = 1 :=
  ⟨(disabled_deleted_zero_timers_enable_rearms stTime8 "auto_100" autoTime8
      (by decide) (by decide) (by decide)).1,
   (disabled_deleted_zero_timers_enable_rearms stTime8 "auto_100" autoTime8
      (by decide) (by decide) (by decide)).2.1,
   (disabled_deleted_zero_timers_enable_rearms stTime8 "auto_100" autoTime8
      (by decide) (by decide) (by decide)).2.2 (by decide)⟩

/-- C10 (confirmed): every successfully created automation is stored with
enabled = true (plus run_count 0, no last_run, success_rate 1) — the create
operation hardcodes the flag and offers no way to create a disabled
automation — and when the trigger is time-based the stored entity is
immediately handed to the scheduling step (the job list is exactly
`_schedule_automation` applied to it). -/
theorem create_enabled_by_default
    (st : EngineState) (now : Nat) (name : String) (trigger : RawTrigger)
    (actions : List RawAction) (conditions : Option (List String))
    (res : CreateResult) (a : Automation)
    (hres : (create_automation st now name trigger actions conditions).1 = .ok res)
    (ha : dictLookup (create_automation st now name trigger actions
      conditions).2.automations res.id = some a) :
    a.enabled = true ∧ a.run_count = 0 ∧ a.last_run = none ∧ a.success_rate = 1 ∧
    (a.trigger.type = TriggerType.time_based →
      (create_automation st now name trigger actions conditions).2.jobs =
        scheduleAutomation st.jobs a) := by
  cases htp : TriggerType.ofString trigger.type with
  | none => simp [create_automation, htp] at hres
  | some t =>
      cases hpa : parseActions actions with
      | error e => simp [create_automation, htp, hpa] at hres
      | ok objs =>
          simp only [create_automation, htp, hpa] at hres ha ⊢
          have hres2 := (Except.ok.inj hres).symm
          subst hres2
          rw [dictLookup_insert_self] at ha
          have ha2 := (Option.some.inj ha).symm
          subst ha2
          refine ⟨rfl, rfl, rfl, rfl, ?_⟩
          intro htime
          rw [if_pos htime]

/-- C10 (witness): the theorem at the concrete time-based create, where the
scheduling implication is live. -/
theorem create_enabled_by_default_witness :
    autoTime8.enabled = true ∧ autoTime8.run_count = 0 ∧
    autoTime8.last_run = none ∧ autoTime8.success_rate = 1 ∧
    (autoTime8.trigger.type = TriggerType.time_based →
      (create_automation st0 100 "sunrise" rawTimeTrigger8 [rawMsgAction]
        none).2.jobs = scheduleAutomation st0.jobs autoTime8) :=
  create_enabled_by_default st0 100 "sunrise" rawTimeTrigger8 [rawMsgAction] none
    ⟨"auto_100", "sunrise", "created", "Automation sunrise created successfully"⟩
    autoTime8 (by decide) (by decide)

end OmniAutomation
